import Mathlib

/-!
Verification of the music-player appliance: a shallow embedding of the
user-space daemon (`music_daemon.c`) and the GPIO input kernel driver
(`music_input_driver.c`), together with theorems settling the spec claims
about queueing, debouncing, volume control and the playback state machine.
-/

namespace MusicDaemon

/-- `NUM_SONGS` from `music_daemon.c`: number of local songs in the playlist. -/
def NUM_SONGS : Int := 5

/-- The daemon's global runtime state (`music_daemon.c`, RUNTIME STATE block).
`mixer_level` models the last percentage handed to the `amixer` shell-out in
`set_volume` — the effective output volume observable at the mixer.
The process handle `mpg_pid` is `-1` when absent, positive when a child was
forked. -/
structure DaemonState where
  current_song : Int
  current_volume : Int
  is_playing : Bool
  is_muted : Bool
  is_cloud : Bool
  mpg_pid : Int
  volume_before_mute : Int
  last_event_ms : Nat
  mixer_level : Int
  deriving DecidableEq, Repr

/-- Initial values of the globals in `music_daemon.c` (`current_song = 0`,
`current_volume = 75`, flags clear, `mpg_pid = -1`, `volume_before_mute = 75`).
`mixer_level` is 75 because `main` applies `set_volume(current_volume)` at
startup before any event is handled. -/
def initDaemon : DaemonState :=
  { current_song := 0
    current_volume := 75
    is_playing := false
    is_muted := false
    is_cloud := false
    mpg_pid := -1
    volume_before_mute := 75
    last_event_ms := 0
    mixer_level := 75 }

/-- `set_volume` from `music_daemon.c`: clamp to [0,100], store, and apply the
clamped value to the ALSA mixer (modelled by `mixer_level`). -/
def set_volume (v : Int) (s : DaemonState) : DaemonState :=
  let v1 := if v < 0 then 0 else v
  let v2 := if v1 > 100 then 100 else v1
  { s with current_volume := v2, mixer_level := v2 }

/-- `volume_up` from `music_daemon.c`. -/
def volume_up (s : DaemonState) : DaemonState :=
  set_volume (s.current_volume + 5) s

/-- `volume_down` from `music_daemon.c`. -/
def volume_down (s : DaemonState) : DaemonState :=
  set_volume (s.current_volume - 5) s

/-- `toggle_mute` from `music_daemon.c`: on mute, snapshot the volume and
apply 0; on unmute, re-apply the snapshot. -/
def toggle_mute (s : DaemonState) : DaemonState :=
  if !s.is_muted then
    let s1 := { s with volume_before_mute := s.current_volume }
    let s2 := set_volume 0 s1
    { s2 with is_muted := true }
  else
    let s2 := set_volume s.volume_before_mute s
    { s2 with is_muted := false }

/-- `stop_playback` from `music_daemon.c`: if a child is recorded, SIGTERM it,
reap it and clear the handle; always clear `is_playing`. -/
def stop_playback (s : DaemonState) : DaemonState :=
  let s1 := if s.mpg_pid > 0 then { s with mpg_pid := -1 } else s
  { s1 with is_playing := false }

/-- `start_playback` from `music_daemon.c`, parametrised by the value `fork`
returns in the parent (`fork_ret > 0` on success, `-1` on failure): an early
return when a child is already recorded, otherwise record the fork result and
set `is_playing = 1` — unconditionally, even when the fork failed. -/
def start_playback (fork_ret : Int) (s : DaemonState) : DaemonState :=
  if s.mpg_pid > 0 then s
  else { s with mpg_pid := fork_ret, is_playing := true }

/-- `handle_playpause` from `music_daemon.c`: stop when playing, start when
not. -/
def handle_playpause (fork_ret : Int) (s : DaemonState) : DaemonState :=
  if s.is_playing then stop_playback s else start_playback fork_ret s

/-- `handle_next` from `music_daemon.c`: stop, advance the index modulo
`NUM_SONGS` (C `%` is truncating remainder, `Int.tmod`), restart. -/
def handle_next (fork_ret : Int) (s : DaemonState) : DaemonState :=
  let s1 := stop_playback s
  let s2 := { s1 with current_song := (s1.current_song + 1).tmod NUM_SONGS }
  start_playback fork_ret s2

/-- `handle_prev` from `music_daemon.c`: stop, step the index back with an
explicit wrap from 0 to `NUM_SONGS - 1`, restart. -/
def handle_prev (fork_ret : Int) (s : DaemonState) : DaemonState :=
  let s1 := stop_playback s
  let s2 := { s1 with
    current_song := if s1.current_song = 0 then NUM_SONGS - 1
                    else s1.current_song - 1 }
  start_playback fork_ret s2

/-- `toggle_mode` from `music_daemon.c`: flip the source flag, stop, re-reduce
the index modulo the (new) catalog length, restart. -/
def toggle_mode (fork_ret : Int) (s : DaemonState) : DaemonState :=
  let s1 := { s with is_cloud := !s.is_cloud }
  let s2 := stop_playback s1
  let s3 := { s2 with
    current_song := if s2.is_cloud then s2.current_song.tmod 5
                    else s2.current_song.tmod NUM_SONGS }
  start_playback fork_ret s3

/-- `status_text` from `music_daemon.c`: the status line shown on the display
is driven by the process handle alone. -/
def status_text (s : DaemonState) : String :=
  if s.mpg_pid > 0 then "Playing" else "Stopped"

/-- The body a response of `handle_http_request` carries: every command path
and unrecognized path answers the fixed `"OK\n"` text, `GET / ` answers the
control page HTML, and the `/local` branch answers its custom success text
(carrying the selected index). -/
inductive HttpResponse where
  | ok
  | html
  | localMsg (songIdx : Int)
  deriving DecidableEq, Repr

/-- C `strstr`: the suffix of `hay` starting at the first occurrence of
`needle`, if any. -/
def strstr (hay needle : List Char) : Option (List Char) :=
  match hay with
  | [] => if needle = [] then some [] else none
  | c :: rest => if needle.isPrefixOf (c :: rest) then some (c :: rest)
                 else strstr rest needle

/-- Digit-accumulation loop of C `atoi`: consume leading decimal digits. -/
def atoiDigits : List Char → Int → Int
  | c :: rest, acc =>
      if c.isDigit then atoiDigits rest (acc * 10 + (c.toNat - 48))
      else acc
  | [], acc => acc

/-- C `atoi`: skip whitespace, take an optional sign, then leading digits. -/
def atoi (cs : List Char) : Int :=
  match cs.dropWhile Char.isWhitespace with
  | '-' :: rest => -(atoiDigits rest 0)
  | '+' :: rest => atoiDigits rest 0
  | rest => atoiDigits rest 0

/-- `handle_http_request` from `music_daemon.c`: the request buffer is matched
by `strncmp` against fixed path prefixes in order; command paths run the same
handlers as the buttons and fall through to the default `"OK\n"` response;
`GET /local` parses `song=<n>` (out-of-range indices reset to 0), forces local
mode, rewrites the index, clears the consumer debounce stamp and restarts
playback. There is no `GET /cloud` branch. -/
def handle_http_request (fork_ret : Int) (buf : List Char) (s : DaemonState) :
    DaemonState × HttpResponse :=
  if ("GET /test".toList).isPrefixOf buf then (s, .ok)
  else if ("GET /play".toList).isPrefixOf buf then (handle_playpause fork_ret s, .ok)
  else if ("GET /pause".toList).isPrefixOf buf then (handle_playpause fork_ret s, .ok)
  else if ("GET /next".toList).isPrefixOf buf then (handle_next fork_ret s, .ok)
  else if ("GET /prev".toList).isPrefixOf buf then (handle_prev fork_ret s, .ok)
  else if ("GET /vol_up".toList).isPrefixOf buf then (volume_up s, .ok)
  else if ("GET /vol_down".toList).isPrefixOf buf then (volume_down s, .ok)
  else if ("GET /mute".toList).isPrefixOf buf then (toggle_mute s, .ok)
  else if ("GET /mode".toList).isPrefixOf buf then (toggle_mode fork_ret s, .ok)
  else if ("GET /local".toList).isPrefixOf buf then
    let id : Int :=
      match strstr buf ("song=".toList) with
      | some p =>
          let i := atoi (p.drop 5)
          if i < 0 ∨ i ≥ NUM_SONGS then 0 else i
      | none => 0
    let s1 := { s with is_cloud := false, current_song := id, last_event_ms := 0 }
    let s2 := start_playback fork_ret (stop_playback s1)
    (s2, .localMsg s2.current_song)
  else if ("GET / ".toList).isPrefixOf buf then (s, .html)
  else (s, .ok)

end MusicDaemon

namespace MusicDriver

/-- `EVENT_BUF_SIZE` from `music_input_driver.c`. -/
def EVENT_BUF_SIZE : Nat := 32

/-- `DEBOUNCE_MS` from `music_input_driver.c`. -/
def DEBOUNCE_MS : Nat := 200

/-- The driver's ring buffer (`event_buffer`, `buf_head`, `buf_tail` in
`music_input_driver.c`). The C array is modelled as a total function; only
indices below `EVENT_BUF_SIZE` are ever touched. -/
structure MidQueue where
  event_buffer : Nat → Char
  buf_head : Nat
  buf_tail : Nat

/-- Queue state at module load: zeroed static storage, `buf_head = buf_tail = 0`. -/
def initQueue : MidQueue :=
  { event_buffer := fun _ => Char.ofNat 0, buf_head := 0, buf_tail := 0 }

/-- `queue_event` from `music_input_driver.c`: compute the advanced head; if it
would collide with the tail the event is dropped, otherwise store at the old
head and advance.  (The spinlock and the reader wakeup have no effect on the
sequential contents.) -/
def queue_event (event : Char) (q : MidQueue) : MidQueue :=
  let next := (q.buf_head + 1) % EVENT_BUF_SIZE
  if next ≠ q.buf_tail then
    { q with
      event_buffer := fun j => if j = q.buf_head then event else q.event_buffer j
      buf_head := next }
  else q

/-- The read side of `mid_read` from `music_input_driver.c`: block while the
queue is empty (`none` models a read that would block forever), otherwise
return the entry at the tail and advance the tail. -/
def mid_read (q : MidQueue) : Option (Char × MidQueue) :=
  if q.buf_head = q.buf_tail then none
  else some (q.event_buffer q.buf_tail,
             { q with buf_tail := (q.buf_tail + 1) % EVENT_BUF_SIZE })

/-- Push a whole list of events through `queue_event`, oldest first. -/
def pushAll (es : List Char) (q : MidQueue) : MidQueue :=
  es.foldl (fun q e => queue_event e q) q

/-- Perform `n` blocking reads; `none` when one of them would block forever. -/
def readN : Nat → MidQueue → Option (List Char × MidQueue)
  | 0, q => some ([], q)
  | n + 1, q =>
    match mid_read q with
    | none => none
    | some (c, q1) =>
      match readN n q1 with
      | none => none
      | some (cs, q2) => some (c :: cs, q2)

/-- Per-channel ISR state for the play button: the shared ring buffer plus
`last_play_time` (jiffies of the last accepted transition). -/
structure IsrState where
  queue : MidQueue
  last_play_time : Nat

/-- `play_isr` from `music_input_driver.c`, at a transition timestamped `now`
(jiffies): accept when `time_after(now, last_play_time + d)` where `d` is
`msecs_to_jiffies(DEBOUNCE_MS)`; on accept, record the timestamp and enqueue
`'P'`. Returns the updated state and whether the transition was accepted. -/
def play_isr (d now : Nat) (st : IsrState) : IsrState × Bool :=
  if st.last_play_time + d < now then
    ({ queue := queue_event 'P' st.queue, last_play_time := now }, true)
  else (st, false)

/-- Drive `play_isr` over a whole sequence of raw transitions; also collects
the timestamps of the accepted ones, in order. -/
def runPlayIsr (d : Nat) : List Nat → IsrState → IsrState × List Nat
  | [], st => (st, [])
  | t :: ts, st =>
    let r := play_isr d t st
    let rest := runPlayIsr d ts r.1
    (rest.1, if r.2 then t :: rest.2 else rest.2)

end MusicDriver

namespace MusicDaemon

/-- `stop_playback` never touches the track index. -/
@[simp] theorem stop_playback_current_song (s : DaemonState) :
    (stop_playback s).current_song = s.current_song := by
  unfold stop_playback; split_ifs <;> rfl

/-- `stop_playback` clears the playing flag. -/
@[simp] theorem stop_playback_is_playing (s : DaemonState) :
    (stop_playback s).is_playing = false := by
  unfold stop_playback; split_ifs <;> rfl

/-- `stop_playback` never touches the source-mode flag. -/
@[simp] theorem stop_playback_is_cloud (s : DaemonState) :
    (stop_playback s).is_cloud = s.is_cloud := by
  unfold stop_playback; split_ifs <;> rfl

/-- After `stop_playback` no positive process handle remains. -/
theorem stop_playback_mpg_pid_nonpos (s : DaemonState) :
    (stop_playback s).mpg_pid ≤ 0 := by
  unfold stop_playback
  split_ifs with hp <;> simp
  omega

/-- `start_playback` never touches the track index. -/
@[simp] theorem start_playback_current_song (f : Int) (s : DaemonState) :
    (start_playback f s).current_song = s.current_song := by
  unfold start_playback; split_ifs <;> rfl

/-- `start_playback` never touches the source-mode flag. -/
@[simp] theorem start_playback_is_cloud (f : Int) (s : DaemonState) :
    (start_playback f s).is_cloud = s.is_cloud := by
  unfold start_playback; split_ifs <;> rfl

/-- With no recorded child, `start_playback` records the fork result and sets
the playing flag. -/
theorem start_playback_of_nonpos (f : Int) (s : DaemonState) (h : s.mpg_pid ≤ 0) :
    (start_playback f s).mpg_pid = f ∧ (start_playback f s).is_playing = true := by
  unfold start_playback
  split_ifs with hp
  · omega
  · exact ⟨rfl, rfl⟩

/-- C4: PREV from index 0 wraps to `NUM_SONGS - 1`; NEXT from `NUM_SONGS - 1`
wraps to 0 — the index advances modulo the catalog length. -/
theorem wraparound_next_prev :
    (∀ (f : Int) (s : DaemonState), s.current_song = 0 →
        (handle_prev f s).current_song = NUM_SONGS - 1) ∧
    (∀ (f : Int) (s : DaemonState), s.current_song = NUM_SONGS - 1 →
        (handle_next f s).current_song = 0) := by
  constructor
  · intro f s h
    simp [handle_prev, h, NUM_SONGS]
  · intro f s h
    simp [handle_next, h, NUM_SONGS]

/-- Witness for C4 at concrete states. -/
theorem wraparound_next_prev_witness :
    (handle_prev 9 initDaemon).current_song = NUM_SONGS - 1 ∧
    (handle_next 9 { initDaemon with current_song := 4 }).current_song = 0 :=
  ⟨wraparound_next_prev.1 9 initDaemon (by decide),
   wraparound_next_prev.2 9 { initDaemon with current_song := 4 } (by decide)⟩

set_option maxRecDepth 4000

/-- C5: VOLUME_UP adds 5 and VOLUME_DOWN subtracts 5, clamped to [0,100] after
every command; from the initial volume 75, five VOLUME_DOWN commands yield
exactly 50 and fifty VOLUME_UP commands yield exactly 100, never more. -/
theorem volume_step_clamp :
    (∀ s : DaemonState,
        (volume_up s).current_volume = min 100 (max 0 (s.current_volume + 5)) ∧
        (volume_down s).current_volume = min 100 (max 0 (s.current_volume - 5))) ∧
    (volume_down^[5] initDaemon).current_volume = 50 ∧
    (volume_up^[50] initDaemon).current_volume = 100 := by
  refine ⟨fun s => ⟨?_, ?_⟩, by decide, by decide⟩ <;>
    · simp only [volume_up, volume_down, set_volume]
      split_ifs <;> omega

/-- C10: NEXT and PREV always finish by (re)starting playback — from any
state, including Stopped with no live process, the resulting state has the
playing flag set and the fresh fork result recorded as the process handle;
they are never a no-op. -/
theorem next_prev_always_playing :
    ∀ (f : Int) (s : DaemonState),
      (handle_next f s).is_playing = true ∧ (handle_next f s).mpg_pid = f ∧
      (handle_prev f s).is_playing = true ∧ (handle_prev f s).mpg_pid = f := by
  intro f s
  have hn := stop_playback_mpg_pid_nonpos s
  unfold handle_next handle_prev
  have h1 := start_playback_of_nonpos f
      { stop_playback s with
        current_song := ((stop_playback s).current_song + 1).tmod NUM_SONGS } hn
  have h2 := start_playback_of_nonpos f
      { stop_playback s with
        current_song := if (stop_playback s).current_song = 0 then NUM_SONGS - 1
                        else (stop_playback s).current_song - 1 } hn
  exact ⟨h1.2, h1.1, h2.2, h2.1⟩

/-- C6: starting unmuted with a volume already in [0,100] (an invariant of
every reachable state), two successive `toggle_mute` calls restore the exact
pre-mute volume and clear the muted flag again. -/
theorem double_toggle_mute_restores (s : DaemonState)
    (hm : s.is_muted = false) (h0 : 0 ≤ s.current_volume)
    (h1 : s.current_volume ≤ 100) :
    (toggle_mute (toggle_mute s)).current_volume = s.current_volume ∧
    (toggle_mute (toggle_mute s)).is_muted = false := by
  unfold toggle_mute set_volume
  simp [hm]
  split_ifs <;> simp_all <;> omega

/-- Witness for C6 at the initial state (volume 75). -/
theorem double_toggle_mute_restores_witness :
    (toggle_mute (toggle_mute initDaemon)).current_volume =
        initDaemon.current_volume ∧
    (toggle_mute (toggle_mute initDaemon)).is_muted = false :=
  double_toggle_mute_restores initDaemon (by decide) (by decide) (by decide)

/-- C1 refutation: from Playing with live child 42, PLAY_PAUSE clears the
process handle (the child is SIGTERMed and reaped, not suspended) and the
status shows Stopped, not Paused; a second PLAY_PAUSE forks a fresh child
(here 99), so the process identity is not preserved (99 ≠ 42). -/
theorem playpause_counterexample :
    (handle_playpause 99
        { initDaemon with is_playing := true, mpg_pid := 42 }).mpg_pid = -1 ∧
    status_text (handle_playpause 99
        { initDaemon with is_playing := true, mpg_pid := 42 }) = "Stopped" ∧
    (handle_playpause 99 (handle_playpause 99
        { initDaemon with is_playing := true, mpg_pid := 42 })).mpg_pid = 99 ∧
    (99 : Int) ≠ 42 := by
  decide

/-- C1 amended: in a playing state (handle absent or a live positive pid, an
invariant of reachable states), PLAY_PAUSE terminates playback — the handle
is cleared and the playing flag dropped — and a second PLAY_PAUSE spawns a
brand-new player process whose pid is the fresh fork result. -/
theorem playpause_stops_then_restarts (f1 f2 : Int) (s : DaemonState)
    (hp : s.is_playing = true) (hpid : s.mpg_pid = -1 ∨ 0 < s.mpg_pid) :
    (handle_playpause f1 s).mpg_pid = -1 ∧
    (handle_playpause f1 s).is_playing = false ∧
    (handle_playpause f2 (handle_playpause f1 s)).mpg_pid = f2 ∧
    (handle_playpause f2 (handle_playpause f1 s)).is_playing = true := by
  unfold handle_playpause stop_playback start_playback
  rcases hpid with h | h <;> split_ifs <;> simp_all

/-- Witness for the amended C1 at a concrete playing state. -/
theorem playpause_stops_then_restarts_witness :
    (handle_playpause 7
        { initDaemon with is_playing := true, mpg_pid := 42 }).mpg_pid = -1 ∧
    (handle_playpause 7
        { initDaemon with is_playing := true, mpg_pid := 42 }).is_playing = false ∧
    (handle_playpause 8 (handle_playpause 7
        { initDaemon with is_playing := true, mpg_pid := 42 })).mpg_pid = 8 ∧
    (handle_playpause 8 (handle_playpause 7
        { initDaemon with is_playing := true, mpg_pid := 42 })).is_playing = true :=
  playpause_stops_then_restarts 7 8
    { initDaemon with is_playing := true, mpg_pid := 42 }
    (by decide) (Or.inr (by decide))

/-- C3 refutation: mute the initial state (mixer forced to 0, muted flag set),
then one VOLUME_UP — the daemon applies 5% to the mixer while `is_muted` is
still true, so "muted ⇒ effective output volume is 0" is not preserved. -/
theorem mute_volume_counterexample :
    (toggle_mute initDaemon).is_muted = true ∧
    (toggle_mute initDaemon).mixer_level = 0 ∧
    (volume_up (toggle_mute initDaemon)).is_muted = true ∧
    (volume_up (toggle_mute initDaemon)).mixer_level = 5 := by
  decide

/-- C3 amended: muting itself does force the mixer to 0 with the flag set,
but the invariant only holds until the next volume command: VOLUME_UP in a
muted state (volume 0 right after muting) re-applies 5% to the mixer and
leaves `is_muted` true. -/
theorem mute_forces_zero_until_volume_command :
    (∀ s : DaemonState, s.is_muted = false →
        (toggle_mute s).is_muted = true ∧
        (toggle_mute s).mixer_level = 0 ∧
        (toggle_mute s).current_volume = 0) ∧
    (∀ s : DaemonState, s.is_muted = true → s.current_volume = 0 →
        (volume_up s).is_muted = true ∧
        (volume_up s).mixer_level = 5) := by
  constructor
  · intro s hm
    unfold toggle_mute set_volume
    simp [hm]
  · intro s hm hv
    unfold volume_up set_volume
    simp [hm, hv]

/-- Witness for the amended C3 at the initial state. -/
theorem mute_forces_zero_until_volume_command_witness :
    ((toggle_mute initDaemon).is_muted = true ∧
     (toggle_mute initDaemon).mixer_level = 0 ∧
     (toggle_mute initDaemon).current_volume = 0) ∧
    ((volume_up (toggle_mute initDaemon)).is_muted = true ∧
     (volume_up (toggle_mute initDaemon)).mixer_level = 5) :=
  ⟨mute_forces_zero_until_volume_command.1 initDaemon (by decide),
   mute_forces_zero_until_volume_command.2 (toggle_mute initDaemon)
     (by decide) (by decide)⟩

/-- C8 refutation: `start_playback` when `fork` fails (returns -1) still sets
the playing flag — the session is not left with the playing flag false as the
claim requires. -/
theorem spawn_failure_counterexample :
    (start_playback (-1) initDaemon).is_playing = true := by
  decide

/-- C8 amended: when `fork` fails in a state with no recorded child, no
process handle is recorded and the display status reports Stopped (the status
line only consults the handle), but the `is_playing` flag is left set to
true — `start_playback` sets it unconditionally, so the internal flag and the
displayed state disagree. -/
theorem spawn_failure_state (s : DaemonState) (h : s.mpg_pid ≤ 0) :
    (start_playback (-1) s).mpg_pid = -1 ∧
    (start_playback (-1) s).is_playing = true ∧
    status_text (start_playback (-1) s) = "Stopped" := by
  unfold start_playback status_text
  split_ifs <;> simp_all
  omega

/-- Witness for the amended C8 at the initial state. -/
theorem spawn_failure_state_witness :
    (start_playback (-1) initDaemon).mpg_pid = -1 ∧
    (start_playback (-1) initDaemon).is_playing = true ∧
    status_text (start_playback (-1) initDaemon) = "Stopped" :=
  spawn_failure_state initDaemon (by decide)

end MusicDaemon

namespace MusicDriver

/-- Every transition the play-button ISR accepts is strictly later than the
previous accepted timestamp plus the debounce window, and the accepted
timestamps form a chain with gaps exceeding the window. -/
theorem runPlayIsr_sep_aux (d : Nat) (ts : List Nat) (st : IsrState) :
    (∀ t ∈ (runPlayIsr d ts st).2, st.last_play_time + d < t) ∧
    List.Chain' (fun a b => a + d < b) (runPlayIsr d ts st).2 := by
  induction ts generalizing st with
  | nil => simp [runPlayIsr]
  | cons t ts ih =>
    simp only [runPlayIsr, play_isr]
    by_cases h : st.last_play_time + d < t
    · simp only [h, if_true]
      have hrec := ih { queue := queue_event 'P' st.queue, last_play_time := t }
      simp only at hrec
      constructor
      · intro x hx
        rcases List.mem_cons.mp hx with rfl | hx2
        · exact h
        · have := hrec.1 x hx2
          omega
      · rw [List.chain'_cons']
        refine ⟨?_, hrec.2⟩
        intro b hb
        exact hrec.1 b (List.mem_of_mem_head? hb)
    · simp only [h, if_false]
      exact ih st

/-- C7: (a) for every sequence of raw transitions on the play channel, the
timestamps of the accepted transitions are pairwise separated by more than
the debounce window `d` (consecutive accepted gaps exceed `d`, hence no two
accepted events lie closer than the window); (b) any transition arriving
within the window of the previously accepted one is rejected and leaves the
channel state untouched. -/
theorem debounce_separation :
    (∀ (d : Nat) (ts : List Nat) (st : IsrState),
        List.Chain' (fun a b => a + d < b) (runPlayIsr d ts st).2) ∧
    (∀ (d now : Nat) (st : IsrState), now ≤ st.last_play_time + d →
        play_isr d now st = (st, false)) := by
  constructor
  · intro d ts st
    exact (runPlayIsr_sep_aux d ts st).2
  · intro d now st h
    unfold play_isr
    split_ifs with hc
    · omega
    · rfl

/-- Witness for C7: a transition 150 ms after an accepted one at time 0 with
a 200 ms window is rejected without touching the state. -/
theorem debounce_separation_witness :
    play_isr 200 150 { queue := initQueue, last_play_time := 0 } =
      ({ queue := initQueue, last_play_time := 0 }, false) :=
  debounce_separation.2 200 150 { queue := initQueue, last_play_time := 0 }
    (by omega)

end MusicDriver

namespace MusicDriver

/-- A push into a ring with `buf_tail = 0` and room left (head below 31) is
accepted: it stores at the old head and advances the head by one. -/
theorem queue_event_step (e : Char) (q : MidQueue)
    (ht : q.buf_tail = 0) (hh : q.buf_head + 1 ≤ 31) :
    queue_event e q =
      { q with
        event_buffer := fun j => if j = q.buf_head then e else q.event_buffer j
        buf_head := q.buf_head + 1 } := by
  have hm : (q.buf_head + 1) % EVENT_BUF_SIZE = q.buf_head + 1 :=
    Nat.mod_eq_of_lt (by unfold EVENT_BUF_SIZE; omega)
  simp only [queue_event, hm, ht]
  split_ifs with hc
  · rfl
  · omega

/-- Pushing a list of at most `31 - buf_head` events into a ring with
`buf_tail = 0` accepts them all: the head advances by the list length, slots
below the old head keep their contents, and slot `buf_head + j` holds the
`j`-th pushed event. -/
theorem pushAll_shape (es : List Char) (q : MidQueue)
    (ht : q.buf_tail = 0) (hlen : q.buf_head + es.length ≤ 31) :
    (pushAll es q).buf_tail = 0 ∧
    (pushAll es q).buf_head = q.buf_head + es.length ∧
    (∀ i, i < q.buf_head → (pushAll es q).event_buffer i = q.event_buffer i) ∧
    (∀ j, j < es.length →
        (pushAll es q).event_buffer (q.buf_head + j) = es.getD j (Char.ofNat 0)) := by
  induction es generalizing q with
  | nil =>
    refine ⟨ht, by simp [pushAll], fun i _ => rfl, fun j hj => by simp at hj⟩
  | cons e es ih =>
    have hlen1 : q.buf_head + 1 ≤ 31 := by
      simp only [List.length_cons] at hlen; omega
    have hstep := queue_event_step e q ht hlen1
    have hfold : pushAll (e :: es) q = pushAll es (queue_event e q) := rfl
    rw [hfold, hstep]
    have hrec := ih
      { q with
        event_buffer := fun j => if j = q.buf_head then e else q.event_buffer j
        buf_head := q.buf_head + 1 }
      ht (by simp only [List.length_cons] at hlen; simp; omega)
    simp only at hrec
    refine ⟨hrec.1, ?_, ?_, ?_⟩
    · rw [hrec.2.1]
      simp only [List.length_cons]
      omega
    · intro i hi
      rw [hrec.2.2.1 i (by omega)]
      rw [if_neg (by omega)]
    · intro j hj
      match j with
      | 0 =>
        have hb0 := hrec.2.2.1 q.buf_head (by omega)
        simpa using hb0
      | Nat.succ j' =>
        have hidx : q.buf_head + (j' + 1) = q.buf_head + 1 + j' := by omega
        have hj' : j' < es.length := by
          simp only [List.length_cons] at hj; omega
        have hb1 := hrec.2.2.2 j' hj'
        rw [hidx]
        simpa using hb1

/-- Reading from a wrap-free ring segment — tail `t`, head `t + |es|`
within the first 31 slots, segment contents `es` — returns exactly `es`. -/
theorem readN_shape (es : List Char) (t : Nat) (q : MidQueue)
    (ht : q.buf_tail = t) (hh : q.buf_head = t + es.length)
    (hb : t + es.length ≤ 31)
    (hc : ∀ j, j < es.length → q.event_buffer (t + j) = es.getD j (Char.ofNat 0)) :
    ∃ q2, readN es.length q = some (es, q2) := by
  induction es generalizing t q with
  | nil => exact ⟨q, rfl⟩
  | cons c es ih =>
    have hlen : q.buf_head = t + (es.length + 1) := by
      rw [hh]; simp
    have hne : ¬ q.buf_head = q.buf_tail := by
      rw [ht, hlen]; omega
    have hc0 : q.event_buffer q.buf_tail = c := by
      have h0 := hc 0 (by simp)
      rw [ht]
      simpa using h0
    have hmod : (q.buf_tail + 1) % EVENT_BUF_SIZE = t + 1 := by
      rw [ht]
      exact Nat.mod_eq_of_lt (by unfold EVENT_BUF_SIZE
                                 simp only [List.length_cons] at hb; omega)
    have hmr : mid_read q =
        some (c, { q with buf_tail := (q.buf_tail + 1) % EVENT_BUF_SIZE }) := by
      unfold mid_read
      rw [if_neg hne, hc0]
    obtain ⟨q2, hq2⟩ := ih (t + 1)
      { q with buf_tail := (q.buf_tail + 1) % EVENT_BUF_SIZE }
      hmod
      (by show q.buf_head = t + 1 + es.length
          rw [hlen]; omega)
      (by simp only [List.length_cons] at hb; omega)
      (by intro j hj
          show q.event_buffer (t + 1 + j) = es.getD j (Char.ofNat 0)
          have hj1 := hc (j + 1) (by simp only [List.length_cons]; omega)
          have hidx : t + (j + 1) = t + 1 + j := by omega
          rw [hidx] at hj1
          simpa using hj1)
    refine ⟨q2, ?_⟩
    show readN (es.length + 1) q = some (c :: es, q2)
    simp only [readN, hmr, hq2]

/-- C2 amended: the ring keeps one slot empty, so its capacity is 31 (not the
32 slots of the array): pushing any K ≤ 31 events into the empty queue and
performing K blocking reads returns exactly the pushed codes in FIFO order;
a push onto a full queue leaves the queue completely unchanged — nothing is
overwritten or reordered. -/
theorem queue_fifo_and_drop :
    (∀ es : List Char, es.length ≤ 31 →
        ∃ q2, readN es.length (pushAll es initQueue) = some (es, q2)) ∧
    (∀ (e : Char) (q : MidQueue),
        (q.buf_head + 1) % EVENT_BUF_SIZE = q.buf_tail →
        queue_event e q = q) := by
  constructor
  · intro es hlen
    have hshape := pushAll_shape es initQueue rfl
      (by show 0 + es.length ≤ 31; omega)
    exact readN_shape es 0 (pushAll es initQueue) hshape.1
      (by rw [hshape.2.1]; simp [initQueue])
      (by omega)
      (by intro j hj
          have hb := hshape.2.2.2 j hj
          simpa [initQueue] using hb)
  · intro e q hfull
    simp only [queue_event, hfull]
    simp

/-- Witness for the amended C2: three distinct events pushed and read back in
order, and a push onto a full queue (head 31, tail 0) that changes nothing. -/
theorem queue_fifo_and_drop_witness :
    (∃ q2, readN 3 (pushAll ['P', 'N', 'R'] initQueue) =
        some (['P', 'N', 'R'], q2)) ∧
    queue_event 'U' { event_buffer := fun _ => 'P', buf_head := 31, buf_tail := 0 } =
      { event_buffer := fun _ => 'P', buf_head := 31, buf_tail := 0 } :=
  ⟨queue_fifo_and_drop.1 ['P', 'N', 'R'] (by decide),
   queue_fifo_and_drop.2 'U'
     { event_buffer := fun _ => 'P', buf_head := 31, buf_tail := 0 } (by decide)⟩

set_option maxRecDepth 40000

/-- C2 refutation of the stated capacity: pushing K = 32 events (K ≤ the
claimed capacity 32) into the empty queue and then popping 32 times fails —
the 32nd push was dropped (the ring keeps one slot empty), so the 32nd
blocking read never returns. -/
theorem queue_capacity_counterexample :
    (List.replicate 32 'P').length ≤ 32 ∧
    readN 32 (pushAll (List.replicate 32 'P') initQueue) = none := by
  exact ⟨by decide, by rfl⟩

end MusicDriver

namespace MusicDaemon

/-- C9 refutation: a `cloud?song=<index>` request matches no branch of
`handle_http_request` — the daemon state is completely unchanged (cloud mode
is not forced, no track is selected, playback does not start) and the generic
"OK" response for unrecognized paths is returned. -/
theorem cloud_song_counterexample :
    handle_http_request 7 ("GET /cloud?song=2 HTTP/1.1".toList) initDaemon =
      (initDaemon, HttpResponse.ok) := by
  decide

/-- C9 amended: only `local?song=<index>` is a recognized parametrized
operation: it forces local mode, selects the requested track and starts
playback; any `GET /cloud...` request (any index, any suffix) falls through
every branch, leaves the state untouched and gets the default OK response. -/
theorem http_local_yes_cloud_no :
    (∀ (f : Int) (s : DaemonState) (rest : List Char),
        handle_http_request f ("GET /cloud".toList ++ rest) s =
          (s, HttpResponse.ok)) ∧
    (∀ (f : Int) (s : DaemonState),
        (handle_http_request f ("GET /local?song=2 HTTP/1.1".toList) s).1.is_cloud
            = false ∧
        (handle_http_request f ("GET /local?song=2 HTTP/1.1".toList) s).1.current_song
            = 2 ∧
        (handle_http_request f ("GET /local?song=2 HTTP/1.1".toList) s).1.is_playing
            = true) := by
  constructor
  · intro f s rest
    have h : "GET /cloud".toList = ['G', 'E', 'T', ' ', '/', 'c', 'l', 'o', 'u', 'd'] :=
      rfl
    rw [h]
    simp [handle_http_request, List.isPrefixOf]
  · intro f s
    simp +decide [handle_http_request, strstr, atoi, atoiDigits, NUM_SONGS]
    exact (start_playback_of_nonpos f _ (stop_playback_mpg_pid_nonpos _)).2

end MusicDaemon
